import Mathlib

set_option linter.unusedVariables false

/-!
Verification development for the `mc-prisms-pf` repository
(`materials_commons/prisms-pf/etl.py` and `importsim.py`).

The parameter-file parser (`ParameterFileParser.parse`) is embedded as a pure
step function over an explicit state: the Python instance fields
`self.parameters` (a nested dict) and `self.section_stack` (a stack of dict
references) are represented by a root value plus a key path.  Every dict the
parser pushes on `section_stack` is an ancestor of the current dict inside the
single tree rooted at `self.parameters`, so the stack is exactly the list of
proper prefixes of the key path; popping is `dropLast` on the path.

Python dict values occurring in the tree are either nested dicts, strings or
`None` (leaves are the dicts `{"value": v, "type": t}`), which the type `JVal`
mirrors.  Indexing a missing key raises `KeyError`, and indexing or assigning
into a non-dict raises `TypeError`; the embedding returns these as values of
`PErr`.  Python dict assignment updates an existing key in place (preserving
its position) and appends a fresh key at the end, which `assocSet` mirrors.

The two regexes of `parse` are embedded by functions that reproduce the
backtracking semantics of `re.match` on the stripped lines the parser feeds
them (lines coming out of `str.strip()` are free of `\n` and of leading or
trailing whitespace).
-/

/-- Python whitespace test used by `str.strip` and the regex class `\s`
(restricted to the ASCII whitespace actually occurring in parameter files). -/
def pyWs (c : Char) : Bool := c.isWhitespace

/-- Drop leading whitespace characters. -/
def dropWs (l : List Char) : List Char := l.dropWhile pyWs

/-- Model of Python `str.strip()`: drop whitespace from both ends. -/
def trimList (l : List Char) : List Char := dropWs ((dropWs l.reverse).reverse)

/-- Values stored in the parser's nested dictionaries: strings, `None`, and
nested dicts (as insertion-ordered association lists). -/
inductive JVal where
  | s : String → JVal
  | null : JVal
  | obj : List (String × JVal) → JVal
deriving Repr

/-- Python exceptions the parser can raise while manipulating its dicts. -/
inductive PErr where
  | keyError : String → PErr
  | typeError : PErr
deriving Repr, DecidableEq

/-- Dict lookup on an association list (first binding wins, as keys are
unique by construction of `assocSet`). -/
def assocGet : List (String × JVal) → String → Option JVal
  | [], _ => none
  | (k', v') :: rest, k => if k' = k then some v' else assocGet rest k

/-- Python dict assignment `d[k] = v`: overwrite in place, else append. -/
def assocSet : List (String × JVal) → String → JVal → List (String × JVal)
  | [], k, v => [(k, v)]
  | (k', v') :: rest, k, v =>
      if k' = k then (k, v) :: rest else (k', v') :: assocSet rest k v

/-- Python `d[k]`: `KeyError` on a missing key, `TypeError` when `d` is not a
dict (indexing a `str` or `None` with a string key). -/
def JVal.get1 : JVal → String → Except PErr JVal
  | .obj o, k =>
      match assocGet o k with
      | some v => .ok v
      | none => .error (.keyError k)
  | _, _ => .error .typeError

/-- Follow a key path down from a value. -/
def JVal.getPath (v : JVal) : List String → Except PErr JVal
  | [] => .ok v
  | k :: ks =>
      match v.get1 k with
      | .ok c => c.getPath ks
      | .error e => .error e

/-- Python `d[k] = v`: `TypeError` when `d` is not a dict. -/
def JVal.set1 : JVal → String → JVal → Except PErr JVal
  | .obj o, k, v => .ok (.obj (assocSet o k v))
  | _, _, _ => .error .typeError

/-- Perform `d[k] = v` on the dict addressed by `path` below `root`. -/
def JVal.setPath (root : JVal) : List String → String → JVal → Except PErr JVal
  | [], k, nv => root.set1 k nv
  | p :: ps, k, nv =>
      match root.get1 p with
      | .ok c =>
          match c.setPath ps k nv with
          | .ok c' => root.set1 p c'
          | .error e => .error e
      | .error e => .error e

/-- Membership test `name in self.parameters` (on the root dict). -/
def rootHas (root : JVal) (k : String) : Bool :=
  match root with
  | .obj o => (assocGet o k).isSome
  | _ => false

/-- The leaf dict literal `{"value": value, "type": value_type}` built by the
`set` branch of `ParameterFileParser.parse`. -/
def leafJ (value : String) (ty : Option String) : JVal :=
  .obj [("value", .s value), ("type", match ty with | some t => .s t | none => .null)]

/-- Embedding of `re.match(r"subsection\s+(.+)", line)` on a stripped line:
the literal `subsection`, at least one whitespace character, then the
(greedy, nonempty) group 1.  On a stripped line the group is the rest of the
line with its leading whitespace removed. -/
def subsectionMatchL : List Char → Option (List Char)
  | 's' :: 'u' :: 'b' :: 's' :: 'e' :: 'c' :: 't' :: 'i' :: 'o' :: 'n' :: rest =>
      match rest with
      | [] => none
      | c :: _ =>
          if pyWs c then
            let g := dropWs rest
            if g.isEmpty then none else some g
          else none
  | _ => none

/-- Matcher for the tail `(?:\s*,\s*(\S+))?$` of the `set` regex, applied at
the position right after a candidate lazy group 2: the optional group is
preferred (comma, optional whitespace, then a nonempty run of non-whitespace
characters reaching the end of the line), else `$` must hold (nothing left). -/
def typeTail (rem : List Char) : Option (Option (List Char)) :=
  if rem.isEmpty then some none
  else
    match dropWs rem with
    | ',' :: r2' =>
        if !(dropWs r2').isEmpty && (dropWs r2').all (fun c => !pyWs c) then
          some (some (dropWs r2'))
        else none
    | _ => none

/-- The lazy group 2 `(.+?)` of the `set` regex: extend the value one
character at a time until `typeTail` accepts the remainder. -/
def valueLoop (acc : List Char) : List Char → Option (List Char × Option (List Char))
  | [] => none
  | c :: rest =>
      match typeTail rest with
      | some ty => some (acc ++ [c], ty)
      | none => valueLoop (acc ++ [c]) rest

/-- Count of leading whitespace characters. -/
def wsCount : List Char → Nat
  | [] => 0
  | c :: cs => if pyWs c then wsCount cs + 1 else 0

/-- Backtracking order of the end position `j` of the lazy group 1 `(.+?)` in
the `set` regex, where `m` is the maximal length of `\s+` and `L` the length
of the text after `set`: `j = m+1, …, L` (maximal `\s+`, growing lazy key),
then `j = m, …, 2` (shrinking `\s+`, the key absorbing whitespace). -/
def jCandidates (m L : Nat) : List Nat :=
  ((List.range (L - m)).map (fun i => m + 1 + i)) ++
    ((List.range (m - 1)).map (fun i => m - i))

/-- Try one candidate end position `j` of group 1 in `T` (the text after the
literal `set`): `\s*` then a literal `=` then `\s*` must follow, and the rest
must satisfy the value/type tail of the regex. -/
def tryAnchor (T : List Char) (m j : Nat) :
    Option (List Char × List Char × Option (List Char)) :=
  match dropWs (T.drop j) with
  | '=' :: V =>
      match valueLoop [] (dropWs V) with
      | some (v, ty) => some ((T.take j).drop (min m (j - 1)), v, ty)
      | none => none
  | _ => none

/-- Embedding of `re.match(r"set\s+(.+?)\s*=\s*(.+?)(?:\s*,\s*(\S+))?$", line)`
on a stripped line: the groups `(key, value, optional type)` of the match
chosen by the backtracking preferences of `re` (greedy `\s+`, lazy groups,
preferred optional group), or `none` when the regex does not match. -/
def setMatchL (line : List Char) :
    Option (List Char × List Char × Option (List Char)) :=
  match line with
  | 's' :: 'e' :: 't' :: T =>
      match T with
      | [] => none
      | c :: _ =>
          if pyWs c then
            (jCandidates (wsCount T) T.length).findSome? (fun j => tryAnchor T (wsCount T) j)
          else none
  | _ => none

/-- Parser state: `root` is `self.parameters`, and `path` is the key path
from the root to `current_section` (`self.section_stack` holds precisely the
dicts at the proper prefixes of `path`). -/
structure Core where
  root : JVal
  path : List String
deriving Repr

/-- The freshly constructed parser: `self.parameters = {}`,
`self.section_stack = []`, `current_section = self.parameters`. -/
def initCore : Core := ⟨.obj [], []⟩

/-- The `subsection` branch of `parse`: create the named subsection in the
current section only when the name is absent from the ROOT dict
(`if subsection not in self.parameters`), then descend into
`current_section[subsection]` (which may raise `KeyError` or `TypeError`). -/
def subStep (st : Core) (name : String) : Except PErr Core :=
  match (if rootHas st.root name then .ok st.root
         else st.root.setPath st.path name (.obj [])) with
  | .error e => .error e
  | .ok root1 =>
      match root1.getPath st.path with
      | .error e => .error e
      | .ok cur =>
          match cur.get1 name with
          | .error e => .error e
          | .ok _ => .ok ⟨root1, st.path ++ [name]⟩

/-- One iteration of the `for line in f` loop of `parse`, on the already
stripped line: skip blank lines and comments, try the subsection regex, then
the literal `end` (popping at most one level, a silent no-op on an empty
stack), then the `set` regex (the match groups are `.strip()`-ed and the leaf
dict stored under the key), and otherwise print a warning and keep the state
unchanged. -/
def stepChars (st : Core) (line : List Char) : Except PErr Core :=
  if line.isEmpty then .ok st
  else if line.head? = some '#' then .ok st
  else
    match subsectionMatchL line with
    | some g => subStep st ⟨trimList g⟩
    | none =>
        if line = ['e', 'n', 'd'] then .ok ⟨st.root, st.path.dropLast⟩
        else
          match setMatchL line with
          | some (k, v, ty) =>
              match st.root.setPath st.path ⟨trimList k⟩
                  (leafJ ⟨trimList v⟩ (ty.map (fun t => ⟨trimList t⟩))) with
              | .ok r => .ok ⟨r, st.path⟩
              | .error e => .error e
          | none => .ok st

/-- Process one raw line: `line.strip()` then classify. -/
def stepCore (st : Core) (line : String) : Except PErr Core :=
  stepChars st (trimList line.data)

/-- Run the parse loop over a list of lines from a given state. -/
def runLines (st : Core) (lines : List String) : Except PErr Core :=
  lines.foldlM stepCore st

/-- `ParameterFileParser().parse(f)` on a file whose lines are `lines`:
a fresh parser, then the loop.  The Python method stores the tree in
`self.parameters`; the embedding returns the final state (or the uncaught
exception). -/
def parseLines (lines : List String) : Except PErr Core :=
  runLines initCore lines

/-- The diagnostic `print` of the final `else` branch of the loop body, as a
function of the line alone: `some message` exactly when the stripped line is
non-blank, not a comment, and matches neither the subsection regex, nor
`end`, nor the `set` regex. -/
def diag (line : String) : Option String :=
  if (trimList line.data).isEmpty then none
  else if (trimList line.data).head? = some '#' then none
  else
    match subsectionMatchL (trimList line.data) with
    | some _ => none
    | none =>
        if trimList line.data = ['e', 'n', 'd'] then none
        else
          match setMatchL (trimList line.data) with
          | some _ => none
          | none =>
              some ("Warning: Unable to parse line: " ++ String.mk (trimList line.data))

/-!
Embedding of `add_to_excel(params, calculation, excel_file_path)`.

A spreadsheet file is modelled by its column header and its list of data
rows; `pandas.DataFrame([params])` is the one-row frame whose columns are the
keys of `params` in order.  When the target file does not exist, the frame is
written as the new file.  When it exists, the code checks
`set(existing.columns).issubset(set(new.columns))` and raises otherwise; then
the `ExcelWriter` block writes `existing_data_frame` (not `data_frame`) with
`header=False` at `startrow = max_row`, i.e. it appends the EXISTING rows
after themselves.  The sheet-name lookup `writer.sheets[calculation]` is kept
abstract here; the modelled content is what lands in the sheet being written.
-/

/-- A sheet: header columns plus data rows, in order. -/
structure DataFrame where
  columns : List String
  rows : List (List String)
deriving Repr, DecidableEq

/-- Embedding of `add_to_excel`: `params` is the flat record (an ordered list
of column/value pairs), `existingFile` the parsed content of the target path
when it exists.  Returns the resulting file content or the raised error. -/
def add_to_excel (params : List (String × String))
    (existingFile : Option DataFrame) : Except String DataFrame :=
  let data_frame : DataFrame := ⟨params.map (fun p => p.1), [params.map (fun p => p.2)]⟩
  match existingFile with
  | none => .ok data_frame
  | some existing =>
      if existing.columns.all (fun c => data_frame.columns.contains c) then
        .ok ⟨existing.columns, existing.rows ++ existing.rows⟩
      else
        .error "Existing excel file does not have the same columns as the new data"

/-- What the spreadsheet-append collaborator is specified to produce when the
target file exists and the schema check passes: the new record appended as one
new row after the existing rows. -/
def add_to_excel_spec (params : List (String × String))
    (existing : DataFrame) : DataFrame :=
  ⟨existing.columns, existing.rows ++ [params.map (fun p => p.2)]⟩

/-!
Embedding of `ParameterFileParser.to_params(calculation, source_directory)`.

The method's final `return` statement is not syntactically valid Python
(after the closing `}` of the returned dict literal the tokens
`calculation=calculation, …` follow at line 78, so importing the module
raises `SyntaxError`).  The straight-line bindings before it are embedded as
written: the directory is modelled as an association from file name to text
content, `_exists` is membership and `_get_file_contents` is lookup, and the
binding at line 73 rebinds `description` to the path
`Path(source_directory) / "description.txt"` (rendered as the joined path
string), discarding the text read at line 68.
-/

/-- Lookup of a file's content in a directory listing. -/
def dirGet : List (String × String) → String → Option String
  | [], _ => none
  | (n, c) :: rest, f => if n = f then some c else dirGet rest f

/-- The local variables `description` and `observations` of `to_params` at
the point of its (syntactically broken) `return`, given the sidecar files
present in `source_directory`.  The first binding of `description` is dead
code, shadowed by the rebinding at line 73, exactly as in the source. -/
def to_params_vars (files : List (String × String)) (source_directory : String) :
    String × String :=
  let description :=
    match dirGet files "description.txt" with
    | some c => c
    | none => ""
  let observations :=
    match dirGet files "observations.txt" with
    | some c => c
    | none => ""
  let description := source_directory ++ "/description.txt"
  (description, observations)

/-- What `to_record` is specified to put in the two sidecar fields: the text
content of `description.txt` and `observations.txt`, empty string if absent. -/
def to_record_spec_fields (files : List (String × String)) : String × String :=
  (match dirGet files "description.txt" with
   | some c => c
   | none => "",
   match dirGet files "observations.txt" with
   | some c => c
   | none => "")

/-!
Embedding of `ImportSimulator.organize_files(src_dir, dst_dir, copy_output)`.

The filesystem effects are abstracted into oracles: `isdir` tells whether the
(absolute) source directory exists, and `mkdirs`/`organize` give the outcome
of the `self._create_directory_structure()` and `self._organize_files()`
calls, each of which the method wraps in `try/except Exception` — the
embedding is a total function into the result dictionary, mirroring the fact
that every internal failure is caught and converted into a returned result.
`os.path.abspath(os.path.expanduser(·))` is kept abstract (the identity on
the already-absolute paths considered here); elapsed wall-clock time is not
modelled.
-/

/-- `os.path.basename`: the part after the last `/`. -/
def basename (p : String) : String :=
  ⟨((p.data.reverse.takeWhile (fun c => c ≠ '/'))).reverse⟩

/-- The result dictionary of `organize_files`. -/
structure OrgResult where
  src_dir : String
  dst_dir : String
  success : Bool
  message : String
deriving Repr, DecidableEq

/-- Embedding of `ImportSimulator.organize_files`: early-return with
`success=False` when the source directory does not exist, and for each of the
two `try/except` blocks, convert a raised exception `e` into a
`success=False` result with the corresponding message; otherwise report
success. -/
def organize_files (src_dir : String) (dstArg : Option String)
    (isdir : Bool) (mkdirs : Except String Unit) (organize : Except String Unit) :
    OrgResult :=
  let src := src_dir
  let dst :=
    match dstArg with
    | none => "./" ++ basename src
    | some d => d
  if !isdir then
    ⟨src, dst, false, "Source directory '" ++ src ++ "' does not exist."⟩
  else
    match mkdirs with
    | .error e => ⟨src, dst, false, "Failed to create directory structure: " ++ e⟩
    | .ok _ =>
        match organize with
        | .error e => ⟨src, dst, false, "Failed to organize files: " ++ e⟩
        | .ok _ => ⟨src, dst, true, "File organization completed."⟩

/-! ## Helper lemmas -/

/-- A successful `findSome?` comes from some element of the list. -/
theorem findSome?_some {α β : Type} (f : α → Option β) :
    ∀ (l : List α) (b : β), l.findSome? f = some b → ∃ a, f a = some b := by
  intro l
  induction l with
  | nil => intro b h; simp [List.findSome?] at h
  | cons a t ih =>
      intro b h
      rw [List.findSome?] at h
      cases hfa : f a with
      | some c => rw [hfa] at h; exact ⟨a, hfa.trans h⟩
      | none => rw [hfa] at h; exact ih b h

/-- The type group accepted by `typeTail` is a nonempty token. -/
theorem typeTail_nonempty (rem t : List Char) (h : typeTail rem = some (some t)) :
    t ≠ [] := by
  unfold typeTail at h
  split at h
  · simp at h
  · split at h
    · split at h
      · rename_i hcond
        simp only [Option.some.injEq] at h
        intro hnil
        rw [h, hnil] at hcond
        simp at hcond
      · simp at h
    · simp at h

/-- The lazy value loop only returns type groups accepted by `typeTail`. -/
theorem valueLoop_type_nonempty :
    ∀ (W acc v t : List Char), valueLoop acc W = some (v, some t) → t ≠ [] := by
  intro W
  induction W with
  | nil => intro acc v t h; simp [valueLoop] at h
  | cons c rest ih =>
      intro acc v t h
      rw [valueLoop] at h
      cases htt : typeTail rest with
      | some ty =>
          rw [htt] at h
          simp only [Option.some.injEq, Prod.mk.injEq] at h
          exact typeTail_nonempty rest t (by rw [htt, h.2])
      | none => rw [htt] at h; exact ih (acc ++ [c]) v t h

/-- `tryAnchor` only returns type groups accepted by `typeTail`. -/
theorem tryAnchor_type_nonempty (T : List Char) (m j : Nat) (k v t : List Char)
    (h : tryAnchor T m j = some (k, v, some t)) : t ≠ [] := by
  unfold tryAnchor at h
  split at h
  · split at h
    · rename_i heq
      simp only [Option.some.injEq, Prod.mk.injEq] at h
      exact valueLoop_type_nonempty _ _ _ t (by rw [heq, h.2.2])
    · simp at h
  · simp at h

/-- Unfolding of the parse loop over a cons cell. -/
theorem runLines_cons (st : Core) (a : String) (l : List String) :
    runLines st (a :: l) =
      (match stepCore st a with
       | .ok s => runLines s l
       | .error e => .error e) := by
  cases h : stepCore st a with
  | ok s =>
      show stepCore st a >>= (fun s => runLines s l) = _
      rw [h]
      rfl
  | error e =>
      show stepCore st a >>= (fun s => runLines s l) = _
      rw [h]
      rfl

/-- The parse loop over a concatenation runs the two halves in sequence. -/
theorem runLines_append (st : Core) (l1 l2 : List String) :
    runLines st (l1 ++ l2) =
      (match runLines st l1 with
       | .ok s => runLines s l2
       | .error e => .error e) := by
  induction l1 generalizing st with
  | nil => rfl
  | cons a t ih =>
      rw [List.cons_append, runLines_cons, runLines_cons]
      cases h : stepCore st a with
      | ok s => exact ih s
      | error e => rfl

/-- If a line leaves every state unchanged, splicing it into a line sequence
does not change the parse result. -/
theorem runLines_splice (st : Core) (pre post : List String) (bad : String)
    (hb : ∀ s : Core, stepCore s bad = .ok s) :
    runLines st (pre ++ bad :: post) = runLines st (pre ++ post) := by
  rw [runLines_append, runLines_append]
  cases h : runLines st pre with
  | ok s =>
      show runLines s (bad :: post) = runLines s post
      rw [runLines_cons, hb s]
  | error e => rfl

/-- A line on which the parser prints its diagnostic leaves every parser
state unchanged and raises nothing. -/
theorem stepCore_of_diag_isSome (st : Core) (bad : String)
    (h : (diag bad).isSome) : stepCore st bad = .ok st := by
  unfold diag at h
  unfold stepCore stepChars
  by_cases h1 : (trimList bad.data).isEmpty = true
  · rw [if_pos h1] at h; simp at h
  · rw [if_neg h1] at h ⊢
    by_cases h2 : (trimList bad.data).head? = some '#'
    · rw [if_pos h2] at h; simp at h
    · rw [if_neg h2] at h ⊢
      cases h3 : subsectionMatchL (trimList bad.data) with
      | some g => rw [h3] at h; simp at h
      | none =>
          rw [h3] at h
          dsimp only at h ⊢
          by_cases h4 : trimList bad.data = ['e', 'n', 'd']
          · rw [if_pos h4] at h; simp at h
          · rw [if_neg h4] at h ⊢
            cases h5 : setMatchL (trimList bad.data) with
            | some p => rw [h5] at h; simp at h
            | none => rfl

/-- Away from subsection lines the loop body cannot raise: from a state at
the root (empty section stack, the root being a dict), any line whose
stripped form does not match the subsection regex yields a root-dict state
with an empty stack again. -/
theorem stepCore_no_subsection (o : List (String × JVal)) (l : String)
    (hs : subsectionMatchL (trimList l.data) = none) :
    ∃ o', stepCore ⟨.obj o, []⟩ l = .ok ⟨.obj o', []⟩ := by
  unfold stepCore stepChars
  by_cases h1 : (trimList l.data).isEmpty = true
  · rw [if_pos h1]; exact ⟨o, rfl⟩
  · rw [if_neg h1]
    by_cases h2 : (trimList l.data).head? = some '#'
    · rw [if_pos h2]; exact ⟨o, rfl⟩
    · rw [if_neg h2, hs]
      dsimp only
      by_cases h4 : trimList l.data = ['e', 'n', 'd']
      · rw [if_pos h4]; exact ⟨o, rfl⟩
      · rw [if_neg h4]
        cases h5 : setMatchL (trimList l.data) with
        | some p =>
            obtain ⟨k, v, ty⟩ := p
            exact ⟨assocSet o ⟨trimList k⟩
              (leafJ ⟨trimList v⟩ (ty.map (fun t => ⟨trimList t⟩))), rfl⟩
        | none => exact ⟨o, rfl⟩

/-- Parsing any sequence of lines free of subsection lines succeeds and ends
back at the root, from any root-dict state with an empty stack. -/
theorem runLines_no_subsection :
    ∀ (lines : List String) (o : List (String × JVal)),
      (∀ l ∈ lines, subsectionMatchL (trimList l.data) = none) →
      ∃ o', runLines ⟨.obj o, []⟩ lines = .ok ⟨.obj o', []⟩ := by
  intro lines
  induction lines with
  | nil => intro o _; exact ⟨o, rfl⟩
  | cons a t ih =>
      intro o hall
      obtain ⟨o1, h1⟩ := stepCore_no_subsection o a (hall a (List.mem_cons_self a t))
      obtain ⟨o2, h2⟩ := ih o1 (fun l hl => hall l (List.mem_cons_of_mem a hl))
      exact ⟨o2, by rw [runLines_cons, h1]; exact h2⟩

/-- A string that starts with a nonempty string is not empty. -/
theorem append_ne_empty_left (s t : String) (h : s.data ≠ []) : s ++ t ≠ "" := by
  intro he
  apply h
  have hd : s.data ++ t.data = ([] : List Char) := congrArg String.data he
  exact (List.append_eq_nil.mp hd).1

/-- The underlying characters of an append starting with a nonempty string. -/
theorem append_data_ne_empty (s t : String) (h : s.data ≠ []) : (s ++ t).data ≠ [] :=
  fun he => h (List.append_eq_nil.mp he).1

/-- Group 3 of the `set` regex, when present, is never the empty string. -/
theorem setMatchL_type_nonempty (l k v t : List Char)
    (h : setMatchL l = some (k, v, some t)) : t ≠ [] := by
  unfold setMatchL at h
  split at h
  · split at h
    · simp at h
    · split at h
      · obtain ⟨j, hj⟩ := findSome?_some _ _ _ h
        exact tryAnchor_type_nonempty _ _ j k v t hj
      · simp at h
  · simp at h

/-! ## Claims -/

/-- Claim C1, counterexample: re-opening a subsection does NOT merge at every
nesting depth.  In `subsection A / subsection B / set x = 1 / end /
subsection B / set y = 2 / end / end` the second `subsection B` line finds
`B` absent from the ROOT dict (the membership test consults
`self.parameters`, not the current section), so it overwrites `A`'s existing
subsection `B` with a fresh empty dict: the final `B` holds only `y`, the
leaf `x` is lost. -/
theorem C1_nested_reopen_overwrites :
    parseLines ["subsection A", "subsection B", "set x = 1", "end", "subsection B",
        "set y = 2", "end", "end"] =
      .ok ⟨.obj [("A", .obj [("B", .obj [("y", leafJ "2" none)])])], []⟩ ∧
    assocGet [("y", leafJ "2" none)] "x" = none :=
  ⟨rfl, rfl⟩

/-- Claim C1 (amended): re-opening an existing subsection name merges rather
than overwrites at the ROOT of the tree — `subsection A / set x=1 / end /
subsection A / set y=2 / end` yields a subsection `A` containing both leaves
`x` and `y` — but not at nested depths, where the root-level membership test
makes re-opening overwrite (name absent from root) or raise KeyError (name
present at root but absent from the current section). -/
theorem C1_reopen_merges_at_root :
    parseLines ["subsection A", "set x = 1", "end", "subsection A", "set y = 2", "end"] =
      .ok ⟨.obj [("A", .obj [("x", leafJ "1" none), ("y", leafJ "2" none)])], []⟩ :=
  rfl

/-- Claim C2: evaluation of `add_to_excel` at a failing input.  When the
target file exists and its column set is a subset of the new record's
columns, the code appends a copy of the EXISTING rows (the `ExcelWriter`
block writes `existing_data_frame`, not `data_frame`), so the new record row
never reaches the file — unlike the specified append, which would add the new
record after the existing rows.  The schema-mismatch half of the claim does
hold: a non-subset existing column set raises the error and appends
nothing. -/
theorem C2_append_bug_eval :
    add_to_excel [("c:Calculation", "calc1"), ("a", "1")]
        (some ⟨["c:Calculation", "a"], [["calc0", "0"]]⟩) =
      .ok ⟨["c:Calculation", "a"], [["calc0", "0"], ["calc0", "0"]]⟩ ∧
    add_to_excel_spec [("c:Calculation", "calc1"), ("a", "1")]
        ⟨["c:Calculation", "a"], [["calc0", "0"]]⟩ =
      ⟨["c:Calculation", "a"], [["calc0", "0"], ["calc1", "1"]]⟩ ∧
    (DataFrame.mk ["c:Calculation", "a"] [["calc0", "0"], ["calc0", "0"]] ≠
      DataFrame.mk ["c:Calculation", "a"] [["calc0", "0"], ["calc1", "1"]]) ∧
    add_to_excel [("a", "1")] (some ⟨["b"], [["0"]]⟩) =
      .error "Existing excel file does not have the same columns as the new data" :=
  ⟨rfl, rfl, by decide, rfl⟩

/-- Claim C3, counterexample: `parse` does not return a tree for every
readable file — on the content `subsection A / end / subsection B /
subsection A` the last line finds `A` present at the root (so no fresh dict
is created) but absent from the current section `B`, and `parse` aborts with
an uncaught KeyError, which is not an IO error. -/
theorem C3_parse_raises_keyerror :
    parseLines ["subsection A", "end", "subsection B", "subsection A"] =
      .error (.keyError "A") :=
  rfl

/-- Claim C3 (amended): `parse` yields a ParameterTree even for the empty
file, and for every content none of whose lines matches the subsection
regex; contents with subsection lines can instead abort with an uncaught
KeyError (re-opening, in a nested section, a name known at the root — the
counterexample above) or an uncaught TypeError (`set value = 1 /
subsection value / subsection value / set k = v` descends into the leaf's
string value and then assigns into it), so an IO error on an unopenable
path is not the only failure mode. -/
theorem C3_parse_returns_tree :
    parseLines [] = .ok initCore ∧
    (∀ lines : List String, (∀ l ∈ lines, subsectionMatchL (trimList l.data) = none) →
        ∃ o : List (String × JVal), parseLines lines = .ok ⟨.obj o, []⟩) ∧
    parseLines ["set value = 1", "subsection value", "subsection value", "set k = v"] =
      .error .typeError := by
  refine ⟨rfl, ?_, rfl⟩
  intro lines h
  exact runLines_no_subsection lines [] h

/-- Witness for Claim C3's amended theorem at a concrete subsection-free
content. -/
theorem C3_parse_returns_tree_witness :
    ∃ o : List (String × JVal),
      parseLines ["set a = 1", "end", "# note"] = .ok ⟨.obj o, []⟩ :=
  C3_parse_returns_tree.2.1 ["set a = 1", "end", "# note"] (by decide)

/-- Claim C4: evaluation of the `to_params` bindings at the failing input.
With `description.txt` containing "desc text" and no `observations.txt`, the
binding at line 73 rebinds `description` to the sidecar path, discarding the
file content read at line 68, so the description field cannot be
"desc text" as specified (the `observations` field does keep its specified
value `""`).  Moreover the method's `return` statement is not syntactically
valid Python, so the module cannot even be imported. -/
theorem C4_description_discarded :
    to_params_vars [("description.txt", "desc text")] "src" = ("src/description.txt", "") ∧
    to_record_spec_fields [("description.txt", "desc text")] = ("desc text", "") ∧
    ("src/description.txt" : String) ≠ "desc text" :=
  ⟨rfl, rfl, by decide⟩

/-- Claim C5: an `end` line at an empty section stack is a silent no-op — it
does not raise, does not pop below the root, and leaves the state unchanged —
and `end / set x = 1` yields a tree with the leaf `x` at the root. -/
theorem C5_end_underflow_noop :
    (∀ st : Core, st.path = [] → stepCore st "end" = .ok st) ∧
    parseLines ["end", "set x = 1"] = .ok ⟨.obj [("x", leafJ "1" none)], []⟩ := by
  constructor
  · intro st h
    obtain ⟨root, path⟩ := st
    dsimp only at h
    subst h
    rfl
  · rfl

/-- Witness for Claim C5 at the initial state. -/
theorem C5_end_underflow_noop_witness : stepCore initCore "end" = .ok initCore :=
  C5_end_underflow_noop.1 initCore rfl

/-- Claim C6: `set a = 3.0, double` produces the leaf
`{value: "3.0", type: "double"}` and `set a = 3.0` produces
`{value: "3.0", type: None}`; whenever the `set` regex reports a type group
at all, that group is a nonempty token (type is `None` when absent, never the
empty string). -/
theorem C6_type_suffix :
    parseLines ["set a = 3.0, double"] =
      .ok ⟨.obj [("a", leafJ "3.0" (some "double"))], []⟩ ∧
    parseLines ["set a = 3.0"] = .ok ⟨.obj [("a", leafJ "3.0" none)], []⟩ ∧
    (∀ l k v t : List Char, setMatchL l = some (k, v, some t) → t ≠ []) :=
  ⟨rfl, rfl, setMatchL_type_nonempty⟩

/-- Witness for Claim C6's universal part at the line `set a = 3.0, double`. -/
theorem C6_type_suffix_witness : ("double".data : List Char) ≠ [] :=
  C6_type_suffix.2.2 "set a = 3.0, double".data "a".data "3.0".data "double".data rfl

/-- Claim C7: a non-blank, non-comment line matching none of the line kinds
is skipped with a diagnostic rather than an exception (state unchanged),
splicing such a line into any file does not change the parse result, and
`foobar baz / set x = 1` parses to completion capturing the subsequent valid
line. -/
theorem C7_unparseable_line_skipped :
    (∀ (st : Core) (bad : String), (diag bad).isSome → stepCore st bad = .ok st) ∧
    (∀ (st : Core) (pre post : List String) (bad : String), (diag bad).isSome →
        runLines st (pre ++ bad :: post) = runLines st (pre ++ post)) ∧
    parseLines ["foobar baz", "set x = 1"] = .ok ⟨.obj [("x", leafJ "1" none)], []⟩ ∧
    diag "foobar baz" = some "Warning: Unable to parse line: foobar baz" := by
  refine ⟨stepCore_of_diag_isSome, ?_, rfl, rfl⟩
  intro st pre post bad h
  exact runLines_splice st pre post bad (fun s => stepCore_of_diag_isSome s bad h)

/-- Witness for Claim C7 at the unparseable line `foobar baz`. -/
theorem C7_unparseable_line_skipped_witness :
    stepCore initCore "foobar baz" = .ok initCore ∧
    runLines initCore (["foobar baz", "set x = 1"]) = runLines initCore ["set x = 1"] :=
  ⟨C7_unparseable_line_skipped.1 initCore "foobar baz" rfl,
   C7_unparseable_line_skipped.2.1 initCore [] ["set x = 1"] "foobar baz" rfl⟩

/-- Claim C8: parsing is deterministic.  A parse by a freshly constructed
parser is `runLines initCore`, a pure function of the file content alone, so
two parses of the same content (each from a fresh parser) are equal. -/
theorem C8_parse_deterministic (lines : List String) :
    parseLines lines = parseLines lines :=
  rfl

/-- Witness for Claim C8 at a concrete content. -/
theorem C8_parse_deterministic_witness :
    parseLines ["set a = 1"] = parseLines ["set a = 1"] :=
  C8_parse_deterministic ["set a = 1"]

/-- Claim C9: `organize_files` never raises past its boundary — it is a total
function into the structured result — its reported success is exactly the
success of all three internal phases (source-directory check, directory
creation, file organisation), and every failure yields `success = false`
with a nonempty descriptive message. -/
theorem C9_organize_files_result :
    ∀ (src : String) (dstArg : Option String) (isdir : Bool)
      (mk org : Except String Unit),
      ((organize_files src dstArg isdir mk org).success = true ↔
        (isdir = true ∧ mk = .ok () ∧ org = .ok ())) ∧
      ((organize_files src dstArg isdir mk org).success = false →
        (organize_files src dstArg isdir mk org).message ≠ "") := by
  intro src dstArg isdir mk org
  cases isdir with
  | false =>
      refine ⟨by simp [organize_files], fun _ => ?_⟩
      show ("Source directory '" ++ src ++ "' does not exist.") ≠ ""
      exact append_ne_empty_left _ _ (append_data_ne_empty _ _ (by decide))
  | true =>
      cases mk with
      | error e =>
          refine ⟨by simp [organize_files], fun _ => ?_⟩
          show ("Failed to create directory structure: " ++ e) ≠ ""
          exact append_ne_empty_left _ _ (by decide)
      | ok u =>
          cases org with
          | error e =>
              refine ⟨by simp [organize_files], fun _ => ?_⟩
              show ("Failed to organize files: " ++ e) ≠ ""
              exact append_ne_empty_left _ _ (by decide)
          | ok v =>
              refine ⟨by simp [organize_files], fun hf => ?_⟩
              have : (organize_files src dstArg true (.ok u) (.ok v)).success = true := by
                simp [organize_files]
              rw [this] at hf
              cases hf

/-- Witness for Claim C9 at a missing source directory. -/
theorem C9_organize_files_result_witness :
    (organize_files "sims" none false (.ok ()) (.ok ())).message ≠ "" :=
  (C9_organize_files_result "sims" none false (.ok ()) (.ok ())).2 rfl

/-- Claim C10: a `subsection name` line whose name is a key of the root dict
but not of the current (nested) section raises an uncaught KeyError and
aborts the parse: the membership check consults `self.parameters` while the
descent indexes `current_section`.  Shown in general for the subsection
branch of the loop, and end-to-end on `subsection Alpha / set k = v / end /
subsection Beta / subsection Alpha`. -/
theorem C10_subsection_keyerror :
    (∀ (st : Core) (name : String) (o : List (String × JVal)),
        rootHas st.root name = true →
        st.root.getPath st.path = .ok (.obj o) →
        assocGet o name = none →
        subStep st name = .error (.keyError name)) ∧
    parseLines ["subsection Alpha", "set k = v", "end", "subsection Beta",
        "subsection Alpha"] = .error (.keyError "Alpha") := by
  constructor
  · intro st name o h1 h2 h3
    unfold subStep
    rw [if_pos h1]
    dsimp only
    rw [h2]
    dsimp only
    unfold JVal.get1
    dsimp only
    rw [h3]
  · rfl

/-- Witness for Claim C10's general part at a concrete state. -/
theorem C10_subsection_keyerror_witness :
    subStep ⟨.obj [("A", .obj []), ("B", .obj [])], ["B"]⟩ "A" =
      .error (.keyError "A") :=
  C10_subsection_keyerror.1 ⟨.obj [("A", .obj []), ("B", .obj [])], ["B"]⟩ "A" []
    rfl rfl rfl
